import Mathlib

/-!
Verification development for the guts Python SDK (packages/guts-python/guts).
The Python modules exceptions.py, client.py and models.py are shallowly
embedded: JSON payloads become an inductive type, pydantic models become
structures with explicit decoders, and the request/response/error path of
the client becomes total functions returning Except values. Python runtime
exceptions (AttributeError, TypeError, ...) are modelled as error values.
Datetime fields are kept as their ISO string representation; the ISO
grammar itself is not modelled since no property here depends on it.
-/

namespace Guts

/-- JSON values as produced by response.json(): null, booleans, numbers
(integers suffice for this API), strings, arrays and objects with ordered
string keys. -/
inductive Json where
  | null
  | bool (b : Bool)
  | num (n : Int)
  | str (s : String)
  | arr (elems : List Json)
  | obj (fields : List (String × Json))

/-- Python runtime errors that the embedded code can produce. -/
inductive PyErr where
  | attributeError
  | typeError
  | keyError
  | validationError
deriving DecidableEq

/-- Key lookup in a JSON object, first match wins (Python dicts have unique
keys, so this is exact). -/
def lookupField (fs : List (String × Json)) (k : String) : Option Json :=
  match fs.find? (fun p => p.1 == k) with
  | some p => some p.2
  | none => none

/-- Python d.get(key, default): only dict values have a .get attribute, so
any non-object receiver raises AttributeError. -/
def pyDictGet (j : Json) (key : String) (default : Json) : Except PyErr Json :=
  match j with
  | Json.obj fs => Except.ok ((lookupField fs key).getD default)
  | _ => Except.error PyErr.attributeError

/-- Python iteration over a JSON-decoded value: a list yields its elements,
a dict yields its keys, a string yields its one-character substrings, and
everything else raises TypeError. -/
def pyIter (j : Json) : Except PyErr (List Json) :=
  match j with
  | Json.arr xs => Except.ok xs
  | Json.obj fs => Except.ok (fs.map (fun p => Json.str p.1))
  | Json.str s => Except.ok (s.toList.map (fun c => Json.str (String.singleton c)))
  | _ => Except.error PyErr.typeError

/-- Substring test, used for the Python membership operator on strings. -/
def strContains (hay needle : String) : Bool :=
  needle.isEmpty || (hay.splitOn needle).length ≥ 2

/-- Python membership needle in j for JSON-decoded values: key membership
for dicts, element equality for lists, substring test for strings, and
TypeError for the non-iterable values. -/
def jsonMember (needle : String) (j : Json) : Except PyErr Bool :=
  match j with
  | Json.obj fs => Except.ok (fs.any (fun p => p.1 == needle))
  | Json.arr xs =>
      Except.ok (xs.any (fun x => match x with | Json.str t => t == needle | _ => false))
  | Json.str t => Except.ok (strContains t needle)
  | _ => Except.error PyErr.typeError

/-- Python subscription j[key] with a string key: dict lookup (KeyError
when absent), TypeError on every other JSON value. -/
def pySubscript (j : Json) (key : String) : Except PyErr Json :=
  match j with
  | Json.obj fs =>
      match lookupField fs key with
      | some v => Except.ok v
      | none => Except.error PyErr.keyError
  | _ => Except.error PyErr.typeError

/-- Left-to-right decoding of a list, stopping at the first error, exactly
like a Python list comprehension whose body can raise. -/
def decodeJsonList (dec : Json → Except PyErr α) : List Json → Except PyErr (List α)
  | [] => Except.ok []
  | x :: xs => do
      let a ← dec x
      let as ← decodeJsonList dec xs
      Except.ok (a :: as)

/-! ## Exception layer (exceptions.py) -/

/-- The concrete exception class raised, one constructor per class in
exceptions.py. -/
inductive ExcKind where
  | gutsError
  | notFoundError
  | unauthorizedError
  | forbiddenError
  | rateLimitError
  | validationError
  | serverError
deriving DecidableEq

/-- The observable attributes of a raised Guts exception: its class, plus
the message, status_code and details attributes that GutsError.__init__
stores, plus the retry_after attribute that only RateLimitError carries
(none for every other class). The message is a Json value because the
client can pass any JSON value extracted from the body. -/
structure GutsExc where
  kind : ExcKind
  message : Json
  status_code : Nat
  details : Option Json
  retry_after : Option Int

/-- GutsError(message, status_code=0, details=None). -/
def mkGutsError (message : Json) (status_code : Nat) (details : Option Json) : GutsExc :=
  ⟨ExcKind.gutsError, message, status_code, details, none⟩

/-- NotFoundError: fixes status_code 404. -/
def mkNotFoundError (message : Json) (details : Option Json) : GutsExc :=
  ⟨ExcKind.notFoundError, message, 404, details, none⟩

/-- UnauthorizedError: fixes status_code 401. -/
def mkUnauthorizedError (message : Json) (details : Option Json) : GutsExc :=
  ⟨ExcKind.unauthorizedError, message, 401, details, none⟩

/-- ForbiddenError: fixes status_code 403. -/
def mkForbiddenError (message : Json) (details : Option Json) : GutsExc :=
  ⟨ExcKind.forbiddenError, message, 403, details, none⟩

/-- RateLimitError(message, retry_after=None, details=None): fixes
status_code 429 and stores retry_after. -/
def mkRateLimitError (message : Json) (retry_after : Option Int) (details : Option Json) : GutsExc :=
  ⟨ExcKind.rateLimitError, message, 429, details, retry_after⟩

/-- ValidationError: fixes status_code 422. -/
def mkValidationError (message : Json) (details : Option Json) : GutsExc :=
  ⟨ExcKind.validationError, message, 422, details, none⟩

/-- ServerError(message, status_code=500, details=None). -/
def mkServerError (message : Json) (status_code : Nat) (details : Option Json) : GutsExc :=
  ⟨ExcKind.serverError, message, status_code, details, none⟩

/-- raise_for_status from exceptions.py: some e when the branch taken
raises exception e, none when the function falls through and returns.
Note that the 429 branch calls RateLimitError(message, details=details),
leaving retry_after at its default None. -/
def raise_for_status (status_code : Nat) (message : Json) (details : Option Json) :
    Option GutsExc :=
  if status_code = 401 then some (mkUnauthorizedError message details)
  else if status_code = 403 then some (mkForbiddenError message details)
  else if status_code = 404 then some (mkNotFoundError message details)
  else if status_code = 422 then some (mkValidationError message details)
  else if status_code = 429 then some (mkRateLimitError message none details)
  else if 500 ≤ status_code then some (mkServerError message status_code details)
  else if 400 ≤ status_code then some (mkGutsError message status_code details)
  else none

/-! ## Transport error path (GutsClient._request in client.py) -/

/-- The message/details pair assembled by the failure branch of _request. -/
structure ErrorInfo where
  message : Json
  details : Option Json

/-- Python message = response.text or message with message initially
"Request failed": the empty string is falsy. -/
def fallbackMessage (text : String) : Json :=
  Json.str (if text = "" then "Request failed" else text)

/-- The try/except block of _request on a failing response. The input is
the raw response text together with the result of response.json(): none
when JSON parsing raises. Inside the try block, the membership test and
the subscription can themselves raise on non-dict payloads; any exception
lands in the except branch, which falls back to the raw text (details
stays None because the assignment details = data was never reached). -/
def extractErrorInfo (text : String) (parsed : Option Json) : ErrorInfo :=
  match parsed with
  | none => ⟨fallbackMessage text, none⟩
  | some data =>
    match jsonMember "message" data with
    | Except.error _ => ⟨fallbackMessage text, none⟩
    | Except.ok true =>
        match pySubscript data "message" with
        | Except.ok v => ⟨v, some data⟩
        | Except.error _ => ⟨fallbackMessage text, none⟩
    | Except.ok false => ⟨Json.str "Request failed", some data⟩

/-- httpx response.is_success: 2xx. -/
def is_success (status : Nat) : Bool :=
  decide (200 ≤ status) && decide (status < 300)

/-- Everything _request can produce: a raised Guts exception, or an
uncaught JSONDecodeError from the final response.json() call. -/
inductive ReqError where
  | guts (e : GutsExc)
  | jsonDecodeError

/-- The tail of _request: 204 returns None, otherwise the body must parse
as JSON. -/
def parseBody (status : Nat) (parsed : Option Json) : Except ReqError (Option Json) :=
  if status = 204 then Except.ok none
  else
    match parsed with
    | some j => Except.ok (some j)
    | none => Except.error ReqError.jsonDecodeError

/-- GutsClient._request after the HTTP exchange, as a function of the
response status, raw text and JSON parse result. On a non-success status
it assembles message/details and calls raise_for_status; when that
returns without raising (status below 400) execution falls through to the
normal body handling. -/
def requestModel (status : Nat) (text : String) (parsed : Option Json) :
    Except ReqError (Option Json) :=
  if is_success status then parseBody status parsed
  else
    let info := extractErrorInfo text parsed
    match raise_for_status status info.message info.details with
    | some e => Except.error (ReqError.guts e)
    | none => parseBody status parsed

/-! ## Model layer (models.py): enums -/

/-- IssueState enum; open is a Lean keyword, hence the primed name. -/
inductive IssueState where
  | open'
  | closed
deriving DecidableEq

/-- Wire value of an IssueState. -/
def IssueState.toWire : IssueState → String
  | IssueState.open' => "open"
  | IssueState.closed => "closed"

/-- Parse an IssueState from its wire value; anything else is a pydantic
validation error. -/
def IssueState.fromWire : String → Except PyErr IssueState
  | "open" => Except.ok IssueState.open'
  | "closed" => Except.ok IssueState.closed
  | _ => Except.error PyErr.validationError

/-- PullRequestState enum. -/
inductive PullRequestState where
  | open'
  | closed
  | merged
deriving DecidableEq

/-- Wire value of a PullRequestState. -/
def PullRequestState.toWire : PullRequestState → String
  | PullRequestState.open' => "open"
  | PullRequestState.closed => "closed"
  | PullRequestState.merged => "merged"

/-- Parse a PullRequestState from its wire value. -/
def PullRequestState.fromWire : String → Except PyErr PullRequestState
  | "open" => Except.ok PullRequestState.open'
  | "closed" => Except.ok PullRequestState.closed
  | "merged" => Except.ok PullRequestState.merged
  | _ => Except.error PyErr.validationError

/-- ReviewState enum. -/
inductive ReviewState where
  | pending
  | commented
  | approved
  | changes_requested
  | dismissed
deriving DecidableEq

/-- Wire value of a ReviewState. -/
def ReviewState.toWire : ReviewState → String
  | ReviewState.pending => "pending"
  | ReviewState.commented => "commented"
  | ReviewState.approved => "approved"
  | ReviewState.changes_requested => "changes_requested"
  | ReviewState.dismissed => "dismissed"

/-- Parse a ReviewState from its wire value. -/
def ReviewState.fromWire : String → Except PyErr ReviewState
  | "pending" => Except.ok ReviewState.pending
  | "commented" => Except.ok ReviewState.commented
  | "approved" => Except.ok ReviewState.approved
  | "changes_requested" => Except.ok ReviewState.changes_requested
  | "dismissed" => Except.ok ReviewState.dismissed
  | _ => Except.error PyErr.validationError

/-- WebhookEvent enum. -/
inductive WebhookEvent where
  | push
  | pull_request
  | pull_request_review
  | issues
  | issue_comment
  | create
  | delete
  | release
  | fork
  | star
deriving DecidableEq

/-- Wire value of a WebhookEvent. -/
def WebhookEvent.toWire : WebhookEvent → String
  | WebhookEvent.push => "push"
  | WebhookEvent.pull_request => "pull_request"
  | WebhookEvent.pull_request_review => "pull_request_review"
  | WebhookEvent.issues => "issues"
  | WebhookEvent.issue_comment => "issue_comment"
  | WebhookEvent.create => "create"
  | WebhookEvent.delete => "delete"
  | WebhookEvent.release => "release"
  | WebhookEvent.fork => "fork"
  | WebhookEvent.star => "star"

/-- Parse a WebhookEvent from its wire value. -/
def WebhookEvent.fromWire : String → Except PyErr WebhookEvent
  | "push" => Except.ok WebhookEvent.push
  | "pull_request" => Except.ok WebhookEvent.pull_request
  | "pull_request_review" => Except.ok WebhookEvent.pull_request_review
  | "issues" => Except.ok WebhookEvent.issues
  | "issue_comment" => Except.ok WebhookEvent.issue_comment
  | "create" => Except.ok WebhookEvent.create
  | "delete" => Except.ok WebhookEvent.delete
  | "release" => Except.ok WebhookEvent.release
  | "fork" => Except.ok WebhookEvent.fork
  | "star" => Except.ok WebhookEvent.star
  | _ => Except.error PyErr.validationError

/-! ## Model layer: pydantic field extraction

Extra keys are ignored by pydantic default configuration, so the decoders
only look up the fields they declare. A declared field without a default
is required; a missing required field, or a value of the wrong shape, is
a validation error. A field with a non-Optional type and a default
rejects an explicit null but defaults when absent; an Optional field also
accepts null. -/

/-- Required string field. -/
def reqStr (fs : List (String × Json)) (k : String) : Except PyErr String :=
  match lookupField fs k with
  | some (Json.str s) => Except.ok s
  | _ => Except.error PyErr.validationError

/-- Optional string field defaulting to None. -/
def optStr (fs : List (String × Json)) (k : String) : Except PyErr (Option String) :=
  match lookupField fs k with
  | none => Except.ok none
  | some Json.null => Except.ok none
  | some (Json.str s) => Except.ok (some s)
  | some _ => Except.error PyErr.validationError

/-- String field with a non-None default. -/
def defStr (fs : List (String × Json)) (k : String) (d : String) : Except PyErr String :=
  match lookupField fs k with
  | none => Except.ok d
  | some (Json.str s) => Except.ok s
  | some _ => Except.error PyErr.validationError

/-- Required integer field. -/
def reqInt (fs : List (String × Json)) (k : String) : Except PyErr Int :=
  match lookupField fs k with
  | some (Json.num n) => Except.ok n
  | _ => Except.error PyErr.validationError

/-- Integer field with a default. -/
def defInt (fs : List (String × Json)) (k : String) (d : Int) : Except PyErr Int :=
  match lookupField fs k with
  | none => Except.ok d
  | some (Json.num n) => Except.ok n
  | some _ => Except.error PyErr.validationError

/-- Required boolean field. -/
def reqBool (fs : List (String × Json)) (k : String) : Except PyErr Bool :=
  match lookupField fs k with
  | some (Json.bool b) => Except.ok b
  | _ => Except.error PyErr.validationError

/-- Boolean field with a default. -/
def defBool (fs : List (String × Json)) (k : String) (d : Bool) : Except PyErr Bool :=
  match lookupField fs k with
  | none => Except.ok d
  | some (Json.bool b) => Except.ok b
  | some _ => Except.error PyErr.validationError

/-- Decode a JSON string element. -/
def decodeStr (j : Json) : Except PyErr String :=
  match j with
  | Json.str s => Except.ok s
  | _ => Except.error PyErr.validationError

/-- list[str] field with default_factory=list. -/
def defStrList (fs : List (String × Json)) (k : String) : Except PyErr (List String) :=
  match lookupField fs k with
  | none => Except.ok []
  | some (Json.arr xs) => decodeJsonList decodeStr xs
  | some _ => Except.error PyErr.validationError

/-- Optional boolean field defaulting to None. -/
def optBool (fs : List (String × Json)) (k : String) : Except PyErr (Option Bool) :=
  match lookupField fs k with
  | none => Except.ok none
  | some Json.null => Except.ok none
  | some (Json.bool b) => Except.ok (some b)
  | some _ => Except.error PyErr.validationError

/-! ## Model layer: entities

Field order follows models.py. Datetime fields are the ISO strings from
the wire. The fromJson decoders model applying the pydantic constructor
to a keyword-splatted JSON value: splatting a non-dict raises TypeError,
and field validation errors are validation errors. -/

/-- Repository model (private is a Lean keyword, hence the primed name). -/
structure Repository where
  key : String
  name : String
  owner : String
  description : Option String
  private' : Bool
  default_branch : String
  clone_url : String
  html_url : String
  open_issues_count : Int
  open_pull_requests_count : Int
  created_at : String
  updated_at : String
  pushed_at : Option String

/-- Repository(**item). -/
def Repository.fromJson (j : Json) : Except PyErr Repository :=
  match j with
  | Json.obj fs => do
      let key ← reqStr fs "key"
      let name ← reqStr fs "name"
      let owner ← reqStr fs "owner"
      let description ← optStr fs "description"
      let private' ← defBool fs "private" false
      let default_branch ← defStr fs "default_branch" "main"
      let clone_url ← reqStr fs "clone_url"
      let html_url ← reqStr fs "html_url"
      let open_issues_count ← defInt fs "open_issues_count" 0
      let open_pull_requests_count ← defInt fs "open_pull_requests_count" 0
      let created_at ← reqStr fs "created_at"
      let updated_at ← reqStr fs "updated_at"
      let pushed_at ← optStr fs "pushed_at"
      Except.ok ⟨key, name, owner, description, private', default_branch, clone_url,
        html_url, open_issues_count, open_pull_requests_count, created_at, updated_at,
        pushed_at⟩
  | _ => Except.error PyErr.typeError

/-- Issue model. -/
structure Issue where
  id : String
  number : Int
  title : String
  body : Option String
  state : IssueState
  author : String
  assignees : List String
  labels : List String
  milestone : Option String
  comments_count : Int
  created_at : String
  updated_at : String
  closed_at : Option String
  closed_by : Option String

/-- Issue(**item). -/
def Issue.fromJson (j : Json) : Except PyErr Issue :=
  match j with
  | Json.obj fs => do
      let id ← reqStr fs "id"
      let number ← reqInt fs "number"
      let title ← reqStr fs "title"
      let body ← optStr fs "body"
      let stateStr ← reqStr fs "state"
      let state ← IssueState.fromWire stateStr
      let author ← reqStr fs "author"
      let assignees ← defStrList fs "assignees"
      let labels ← defStrList fs "labels"
      let milestone ← optStr fs "milestone"
      let comments_count ← defInt fs "comments_count" 0
      let created_at ← reqStr fs "created_at"
      let updated_at ← reqStr fs "updated_at"
      let closed_at ← optStr fs "closed_at"
      let closed_by ← optStr fs "closed_by"
      Except.ok ⟨id, number, title, body, state, author, assignees, labels, milestone,
        comments_count, created_at, updated_at, closed_at, closed_by⟩
  | _ => Except.error PyErr.typeError

/-- PullRequest model. -/
structure PullRequest where
  id : String
  number : Int
  title : String
  body : Option String
  state : PullRequestState
  author : String
  source_branch : String
  target_branch : String
  source_commit : String
  target_commit : String
  mergeable : Option Bool
  draft : Bool
  reviewers : List String
  labels : List String
  comments_count : Int
  commits_count : Int
  changed_files : Int
  additions : Int
  deletions : Int
  created_at : String
  updated_at : String
  merged_at : Option String
  merged_by : Option String
  closed_at : Option String

/-- PullRequest(**item). -/
def PullRequest.fromJson (j : Json) : Except PyErr PullRequest :=
  match j with
  | Json.obj fs => do
      let id ← reqStr fs "id"
      let number ← reqInt fs "number"
      let title ← reqStr fs "title"
      let body ← optStr fs "body"
      let stateStr ← reqStr fs "state"
      let state ← PullRequestState.fromWire stateStr
      let author ← reqStr fs "author"
      let source_branch ← reqStr fs "source_branch"
      let target_branch ← reqStr fs "target_branch"
      let source_commit ← reqStr fs "source_commit"
      let target_commit ← reqStr fs "target_commit"
      let mergeable ← optBool fs "mergeable"
      let draft ← defBool fs "draft" false
      let reviewers ← defStrList fs "reviewers"
      let labels ← defStrList fs "labels"
      let comments_count ← defInt fs "comments_count" 0
      let commits_count ← defInt fs "commits_count" 0
      let changed_files ← defInt fs "changed_files" 0
      let additions ← defInt fs "additions" 0
      let deletions ← defInt fs "deletions" 0
      let created_at ← reqStr fs "created_at"
      let updated_at ← reqStr fs "updated_at"
      let merged_at ← optStr fs "merged_at"
      let merged_by ← optStr fs "merged_by"
      let closed_at ← optStr fs "closed_at"
      Except.ok ⟨id, number, title, body, state, author, source_branch, target_branch,
        source_commit, target_commit, mergeable, draft, reviewers, labels,
        comments_count, commits_count, changed_files, additions, deletions,
        created_at, updated_at, merged_at, merged_by, closed_at⟩
  | _ => Except.error PyErr.typeError

/-- Comment model. -/
structure Comment where
  id : String
  body : String
  author : String
  created_at : String
  updated_at : String

/-- Comment(**item). -/
def Comment.fromJson (j : Json) : Except PyErr Comment :=
  match j with
  | Json.obj fs => do
      let id ← reqStr fs "id"
      let body ← reqStr fs "body"
      let author ← reqStr fs "author"
      let created_at ← reqStr fs "created_at"
      let updated_at ← reqStr fs "updated_at"
      Except.ok ⟨id, body, author, created_at, updated_at⟩
  | _ => Except.error PyErr.typeError

/-- Review model. -/
structure Review where
  id : String
  pr_number : Int
  author : String
  state : ReviewState
  body : Option String
  commit_id : String
  created_at : String
  submitted_at : Option String

/-- Review(**item). -/
def Review.fromJson (j : Json) : Except PyErr Review :=
  match j with
  | Json.obj fs => do
      let id ← reqStr fs "id"
      let pr_number ← reqInt fs "pr_number"
      let author ← reqStr fs "author"
      let stateStr ← reqStr fs "state"
      let state ← ReviewState.fromWire stateStr
      let body ← optStr fs "body"
      let commit_id ← reqStr fs "commit_id"
      let created_at ← reqStr fs "created_at"
      let submitted_at ← optStr fs "submitted_at"
      Except.ok ⟨id, pr_number, author, state, body, commit_id, created_at, submitted_at⟩
  | _ => Except.error PyErr.typeError

/-- ReleaseAsset model. -/
structure ReleaseAsset where
  id : String
  name : String
  content_type : String
  size : Int
  download_count : Int
  browser_download_url : String
  created_at : String
  uploader : String

/-- ReleaseAsset(**item). -/
def ReleaseAsset.fromJson (j : Json) : Except PyErr ReleaseAsset :=
  match j with
  | Json.obj fs => do
      let id ← reqStr fs "id"
      let name ← reqStr fs "name"
      let content_type ← reqStr fs "content_type"
      let size ← reqInt fs "size"
      let download_count ← defInt fs "download_count" 0
      let browser_download_url ← reqStr fs "browser_download_url"
      let created_at ← reqStr fs "created_at"
      let uploader ← reqStr fs "uploader"
      Except.ok ⟨id, name, content_type, size, download_count, browser_download_url,
        created_at, uploader⟩
  | _ => Except.error PyErr.typeError

/-- Release model. -/
structure Release where
  id : String
  tag_name : String
  name : String
  body : Option String
  draft : Bool
  prerelease : Bool
  author : String
  target_commitish : String
  assets : List ReleaseAsset
  created_at : String
  published_at : Option String

/-- list[ReleaseAsset] field with default_factory=list. -/
def defAssetList (fs : List (String × Json)) (k : String) :
    Except PyErr (List ReleaseAsset) :=
  match lookupField fs k with
  | none => Except.ok []
  | some (Json.arr xs) => decodeJsonList ReleaseAsset.fromJson xs
  | some _ => Except.error PyErr.validationError

/-- Release(**item). -/
def Release.fromJson (j : Json) : Except PyErr Release :=
  match j with
  | Json.obj fs => do
      let id ← reqStr fs "id"
      let tag_name ← reqStr fs "tag_name"
      let name ← reqStr fs "name"
      let body ← optStr fs "body"
      let draft ← defBool fs "draft" false
      let prerelease ← defBool fs "prerelease" false
      let author ← reqStr fs "author"
      let target_commitish ← reqStr fs "target_commitish"
      let assets ← defAssetList fs "assets"
      let created_at ← reqStr fs "created_at"
      let published_at ← optStr fs "published_at"
      Except.ok ⟨id, tag_name, name, body, draft, prerelease, author, target_commitish,
        assets, created_at, published_at⟩
  | _ => Except.error PyErr.typeError

/-- Label model. -/
structure Label where
  name : String
  color : String
  description : Option String

/-- Label(**item). -/
def Label.fromJson (j : Json) : Except PyErr Label :=
  match j with
  | Json.obj fs => do
      let name ← reqStr fs "name"
      let color ← reqStr fs "color"
      let description ← optStr fs "description"
      Except.ok ⟨name, color, description⟩
  | _ => Except.error PyErr.typeError

/-- User model. -/
structure User where
  id : String
  username : String
  display_name : Option String
  avatar_url : Option String
  bio : Option String
  public_key : String
  created_at : String

/-- User(**item). -/
def User.fromJson (j : Json) : Except PyErr User :=
  match j with
  | Json.obj fs => do
      let id ← reqStr fs "id"
      let username ← reqStr fs "username"
      let display_name ← optStr fs "display_name"
      let avatar_url ← optStr fs "avatar_url"
      let bio ← optStr fs "bio"
      let public_key ← reqStr fs "public_key"
      let created_at ← reqStr fs "created_at"
      Except.ok ⟨id, username, display_name, avatar_url, bio, public_key, created_at⟩
  | _ => Except.error PyErr.typeError

/-- Organization model. -/
structure Organization where
  id : String
  slug : String
  display_name : Option String
  description : Option String
  avatar_url : Option String
  members_count : Int
  repos_count : Int
  created_at : String

/-- Organization(**item). -/
def Organization.fromJson (j : Json) : Except PyErr Organization :=
  match j with
  | Json.obj fs => do
      let id ← reqStr fs "id"
      let slug ← reqStr fs "slug"
      let display_name ← optStr fs "display_name"
      let description ← optStr fs "description"
      let avatar_url ← optStr fs "avatar_url"
      let members_count ← defInt fs "members_count" 0
      let repos_count ← defInt fs "repos_count" 0
      let created_at ← reqStr fs "created_at"
      Except.ok ⟨id, slug, display_name, description, avatar_url, members_count,
        repos_count, created_at⟩
  | _ => Except.error PyErr.typeError

/-- Team model. -/
structure Team where
  id : String
  slug : String
  name : String
  description : Option String
  permission : String
  members_count : Int
  repos_count : Int
  created_at : String

/-- Team(**item). -/
def Team.fromJson (j : Json) : Except PyErr Team :=
  match j with
  | Json.obj fs => do
      let id ← reqStr fs "id"
      let slug ← reqStr fs "slug"
      let name ← reqStr fs "name"
      let description ← optStr fs "description"
      let permission ← defStr fs "permission" "read"
      let members_count ← defInt fs "members_count" 0
      let repos_count ← defInt fs "repos_count" 0
      let created_at ← reqStr fs "created_at"
      Except.ok ⟨id, slug, name, description, permission, members_count, repos_count,
        created_at⟩
  | _ => Except.error PyErr.typeError

/-- Decode one WebhookEvent element. -/
def decodeEvent (j : Json) : Except PyErr WebhookEvent :=
  match j with
  | Json.str s => WebhookEvent.fromWire s
  | _ => Except.error PyErr.validationError

/-- Required list[WebhookEvent] field. -/
def reqEventList (fs : List (String × Json)) (k : String) :
    Except PyErr (List WebhookEvent) :=
  match lookupField fs k with
  | some (Json.arr xs) => decodeJsonList decodeEvent xs
  | _ => Except.error PyErr.validationError

/-- Webhook model. -/
structure Webhook where
  id : String
  url : String
  events : List WebhookEvent
  active : Bool
  secret : Option String
  content_type : String
  created_at : String
  updated_at : String
  last_delivery_at : Option String

/-- Webhook(**item). -/
def Webhook.fromJson (j : Json) : Except PyErr Webhook :=
  match j with
  | Json.obj fs => do
      let id ← reqStr fs "id"
      let url ← reqStr fs "url"
      let events ← reqEventList fs "events"
      let active ← defBool fs "active" true
      let secret ← optStr fs "secret"
      let content_type ← defStr fs "content_type" "json"
      let created_at ← reqStr fs "created_at"
      let updated_at ← reqStr fs "updated_at"
      let last_delivery_at ← optStr fs "last_delivery_at"
      Except.ok ⟨id, url, events, active, secret, content_type, created_at, updated_at,
        last_delivery_at⟩
  | _ => Except.error PyErr.typeError

/-- ConsensusStatus model. -/
structure ConsensusStatus where
  height : Int
  round : Int
  phase : String
  synced : Bool
  peers_count : Int
  validators_count : Int
  mempool_size : Int
  last_block_time : Option String

/-- ConsensusStatus(**data). -/
def ConsensusStatus.fromJson (j : Json) : Except PyErr ConsensusStatus :=
  match j with
  | Json.obj fs => do
      let height ← reqInt fs "height"
      let round ← reqInt fs "round"
      let phase ← reqStr fs "phase"
      let synced ← reqBool fs "synced"
      let peers_count ← reqInt fs "peers_count"
      let validators_count ← reqInt fs "validators_count"
      let mempool_size ← reqInt fs "mempool_size"
      let last_block_time ← optStr fs "last_block_time"
      Except.ok ⟨height, round, phase, synced, peers_count, validators_count,
        mempool_size, last_block_time⟩
  | _ => Except.error PyErr.typeError

/-- Block model. -/
structure Block where
  height : Int
  hash : String
  parent_hash : String
  timestamp : String
  proposer : String
  transactions_count : Int
  size : Int

/-- Block(**item). -/
def Block.fromJson (j : Json) : Except PyErr Block :=
  match j with
  | Json.obj fs => do
      let height ← reqInt fs "height"
      let hash ← reqStr fs "hash"
      let parent_hash ← reqStr fs "parent_hash"
      let timestamp ← reqStr fs "timestamp"
      let proposer ← reqStr fs "proposer"
      let transactions_count ← reqInt fs "transactions_count"
      let size ← reqInt fs "size"
      Except.ok ⟨height, hash, parent_hash, timestamp, proposer, transactions_count, size⟩
  | _ => Except.error PyErr.typeError

/-- Validator model. -/
structure Validator where
  public_key : String
  address : String
  active : Bool
  voting_power : Int
  last_seen : Option String

/-- Validator(**item). -/
def Validator.fromJson (j : Json) : Except PyErr Validator :=
  match j with
  | Json.obj fs => do
      let public_key ← reqStr fs "public_key"
      let address ← reqStr fs "address"
      let active ← reqBool fs "active"
      let voting_power ← reqInt fs "voting_power"
      let last_seen ← optStr fs "last_seen"
      Except.ok ⟨public_key, address, active, voting_power, last_seen⟩
  | _ => Except.error PyErr.typeError

/-! ## Request models and model_dump(exclude_none=True)

The create façade methods for issues, pulls, releases, reviews and
webhooks serialize their request model with model_dump(exclude_none=True),
which walks the fields in declaration order and omits exactly the fields
whose current value is None. Non-None defaults (empty lists, booleans)
are included. -/

/-- A field that is dropped when None and serialized when present. -/
def dumpOptStr (k : String) : Option String → List (String × Json)
  | some s => [(k, Json.str s)]
  | none => []

/-- CreateIssueRequest model. -/
structure CreateIssueRequest where
  title : String
  body : Option String := none
  labels : List String := []
  assignees : List String := []

/-- CreateIssueRequest.model_dump(exclude_none=True). -/
def CreateIssueRequest.dumpExcludeNone (r : CreateIssueRequest) : Json :=
  Json.obj ([("title", Json.str r.title)] ++ dumpOptStr "body" r.body ++
    [("labels", Json.arr (r.labels.map Json.str)),
     ("assignees", Json.arr (r.assignees.map Json.str))])

/-- CreatePullRequestRequest model. -/
structure CreatePullRequestRequest where
  title : String
  body : Option String := none
  source_branch : String
  target_branch : String
  draft : Bool := false

/-- CreatePullRequestRequest.model_dump(exclude_none=True). -/
def CreatePullRequestRequest.dumpExcludeNone (r : CreatePullRequestRequest) : Json :=
  Json.obj ([("title", Json.str r.title)] ++ dumpOptStr "body" r.body ++
    [("source_branch", Json.str r.source_branch),
     ("target_branch", Json.str r.target_branch),
     ("draft", Json.bool r.draft)])

/-- CreateReviewRequest model. -/
structure CreateReviewRequest where
  body : Option String := none
  state : String
  commit_id : Option String := none

/-- CreateReviewRequest.model_dump(exclude_none=True). -/
def CreateReviewRequest.dumpExcludeNone (r : CreateReviewRequest) : Json :=
  Json.obj (dumpOptStr "body" r.body ++ [("state", Json.str r.state)] ++
    dumpOptStr "commit_id" r.commit_id)

/-- CreateReleaseRequest model. -/
structure CreateReleaseRequest where
  tag_name : String
  name : Option String := none
  body : Option String := none
  draft : Bool := false
  prerelease : Bool := false
  target_commitish : Option String := none

/-- CreateReleaseRequest.model_dump(exclude_none=True). -/
def CreateReleaseRequest.dumpExcludeNone (r : CreateReleaseRequest) : Json :=
  Json.obj ([("tag_name", Json.str r.tag_name)] ++ dumpOptStr "name" r.name ++
    dumpOptStr "body" r.body ++
    [("draft", Json.bool r.draft), ("prerelease", Json.bool r.prerelease)] ++
    dumpOptStr "target_commitish" r.target_commitish)

/-- CreateWebhookRequest model. -/
structure CreateWebhookRequest where
  url : String
  events : List WebhookEvent
  active : Bool := true
  secret : Option String := none

/-- CreateWebhookRequest.model_dump(exclude_none=True). -/
def CreateWebhookRequest.dumpExcludeNone (r : CreateWebhookRequest) : Json :=
  Json.obj ([("url", Json.str r.url),
    ("events", Json.arr (r.events.map (fun e => Json.str e.toWire))),
    ("active", Json.bool r.active)] ++ dumpOptStr "secret" r.secret)

/-! ## Resource façades (client.py)

Each façade method issues exactly one HTTP call; we embed it as the
request it hands to GutsClient._request (verb, path, query params, JSON
body) together with a handler turning the JSON payload of a successful
response into the typed result. Paths are built exactly as the f-strings
in client.py build them. -/

/-- One HTTP call as handed to GutsClient._request: verb, path, optional
query parameters, optional JSON body. -/
structure ApiRequest where
  verb : String
  path : String
  params : Option (List (String × Json))
  jsonBody : Option Json

/-- List-style response handling of _RepositoryAPI.list, _IssueAPI.list
and _PullRequestAPI.list: data.get("items", data), then a comprehension
decoding each element. -/
def listWithItemsKey (dec : Json → Except PyErr α) (data : Json) :
    Except PyErr (List α) := do
  let seq ← pyDictGet data "items" data
  let xs ← pyIter seq
  decodeJsonList dec xs

/-- List-style response handling of the remaining list methods, which
iterate the payload directly. -/
def listDirect (dec : Json → Except PyErr α) (data : Json) : Except PyErr (List α) := do
  let xs ← pyIter data
  decodeJsonList dec xs

/-- GET /api/repos with page/per_page (defaults 1 and 30). -/
def reposList_request (page : Int := 1) (per_page : Int := 30) : ApiRequest :=
  ⟨"GET", "/api/repos",
    some [("page", Json.num page), ("per_page", Json.num per_page)], none⟩

/-- Response handling of _RepositoryAPI.list. -/
def reposList_handle (data : Json) : Except PyErr (List Repository) :=
  listWithItemsKey Repository.fromJson data

/-- GET /api/repos/{owner}/{name}. -/
def reposGet_request (owner name : String) : ApiRequest :=
  ⟨"GET", "/api/repos/" ++ owner ++ "/" ++ name, none, none⟩

/-- Response handling of _RepositoryAPI.get. -/
def reposGet_handle (data : Json) : Except PyErr Repository :=
  Repository.fromJson data

/-- Body of _RepositoryAPI.create: a literal dict, so description is
serialized even when it is None. -/
def reposCreate_body (name : String) (description : Option String := none)
    (private' : Bool := false) : Json :=
  Json.obj [("name", Json.str name),
    ("description", match description with | some s => Json.str s | none => Json.null),
    ("private", Json.bool private')]

/-- POST /api/repos with the literal create body. -/
def reposCreate_request (name : String) (description : Option String := none)
    (private' : Bool := false) : ApiRequest :=
  ⟨"POST", "/api/repos", none, some (reposCreate_body name description private')⟩

/-- GET /api/repos/{owner}/{repo}/issues with state/page/per_page
(defaults "open", 1, 30). -/
def issuesList_request (owner repo : String) (state : String := "open")
    (page : Int := 1) (per_page : Int := 30) : ApiRequest :=
  ⟨"GET", "/api/repos/" ++ owner ++ "/" ++ repo ++ "/issues",
    some [("state", Json.str state), ("page", Json.num page),
      ("per_page", Json.num per_page)], none⟩

/-- Response handling of _IssueAPI.list. -/
def issuesList_handle (data : Json) : Except PyErr (List Issue) :=
  listWithItemsKey Issue.fromJson data

/-- Body of _IssueAPI.create: request.model_dump(exclude_none=True). -/
def issuesCreate_body (request : CreateIssueRequest) : Json :=
  request.dumpExcludeNone

/-- PATCH /api/repos/{owner}/{repo}/issues/{number} with the kwargs dict
as JSON body. -/
def issuesUpdate_request (owner repo : String) (number : Int)
    (kwargs : List (String × Json)) : ApiRequest :=
  ⟨"PATCH", "/api/repos/" ++ owner ++ "/" ++ repo ++ "/issues/" ++ toString number,
    none, some (Json.obj kwargs)⟩

/-- Response handling of _IssueAPI.update (and hence close/reopen). -/
def issuesUpdate_handle (data : Json) : Except PyErr Issue :=
  Issue.fromJson data

/-- Method _IssueAPI.close: return self.update(owner, repo, number, state="closed"). -/
def issuesClose_request (owner repo : String) (number : Int) : ApiRequest :=
  issuesUpdate_request owner repo number [("state", Json.str "closed")]

/-- Method _IssueAPI.close response handling, inherited from update. -/
def issuesClose_handle (data : Json) : Except PyErr Issue :=
  issuesUpdate_handle data

/-- Method _IssueAPI.reopen: return self.update(owner, repo, number, state="open"). -/
def issuesReopen_request (owner repo : String) (number : Int) : ApiRequest :=
  issuesUpdate_request owner repo number [("state", Json.str "open")]

/-- Method _IssueAPI.reopen response handling, inherited from update. -/
def issuesReopen_handle (data : Json) : Except PyErr Issue :=
  issuesUpdate_handle data

/-- GET /api/repos/{owner}/{repo}/pulls with state/page/per_page
(defaults "open", 1, 30). -/
def pullsList_request (owner repo : String) (state : String := "open")
    (page : Int := 1) (per_page : Int := 30) : ApiRequest :=
  ⟨"GET", "/api/repos/" ++ owner ++ "/" ++ repo ++ "/pulls",
    some [("state", Json.str state), ("page", Json.num page),
      ("per_page", Json.num per_page)], none⟩

/-- Response handling of _PullRequestAPI.list. -/
def pullsList_handle (data : Json) : Except PyErr (List PullRequest) :=
  listWithItemsKey PullRequest.fromJson data

/-- Body of _PullRequestAPI.create. -/
def pullsCreate_body (request : CreatePullRequestRequest) : Json :=
  request.dumpExcludeNone

/-- PATCH /api/repos/{owner}/{repo}/pulls/{number} with the kwargs dict. -/
def pullsUpdate_request (owner repo : String) (number : Int)
    (kwargs : List (String × Json)) : ApiRequest :=
  ⟨"PATCH", "/api/repos/" ++ owner ++ "/" ++ repo ++ "/pulls/" ++ toString number,
    none, some (Json.obj kwargs)⟩

/-- Response handling of _PullRequestAPI.update (and hence close). -/
def pullsUpdate_handle (data : Json) : Except PyErr PullRequest :=
  PullRequest.fromJson data

/-- Method _PullRequestAPI.close: return self.update(owner, repo, number,
state="closed"). -/
def pullsClose_request (owner repo : String) (number : Int) : ApiRequest :=
  pullsUpdate_request owner repo number [("state", Json.str "closed")]

/-- Method _PullRequestAPI.close response handling, inherited from update. -/
def pullsClose_handle (data : Json) : Except PyErr PullRequest :=
  pullsUpdate_handle data

/-- POST /api/repos/{owner}/{repo}/pulls/{number}/merge with the
merge_method body. -/
def pullsMerge_request (owner repo : String) (number : Int)
    (method : String := "merge") : ApiRequest :=
  ⟨"POST",
    "/api/repos/" ++ owner ++ "/" ++ repo ++ "/pulls/" ++ toString number ++ "/merge",
    none, some (Json.obj [("merge_method", Json.str method)])⟩

/-- GET /api/repos/{owner}/{repo}/releases: no query parameters. -/
def releasesList_request (owner repo : String) : ApiRequest :=
  ⟨"GET", "/api/repos/" ++ owner ++ "/" ++ repo ++ "/releases", none, none⟩

/-- Response handling of _ReleaseAPI.list: direct iteration. -/
def releasesList_handle (data : Json) : Except PyErr (List Release) :=
  listDirect Release.fromJson data

/-- Body of _ReleaseAPI.create. -/
def releasesCreate_body (request : CreateReleaseRequest) : Json :=
  request.dumpExcludeNone

/-- GET /api/repos/{owner}/{repo}/labels: no query parameters. -/
def labelsList_request (owner repo : String) : ApiRequest :=
  ⟨"GET", "/api/repos/" ++ owner ++ "/" ++ repo ++ "/labels", none, none⟩

/-- Response handling of _LabelAPI.list: direct iteration. -/
def labelsList_handle (data : Json) : Except PyErr (List Label) :=
  listDirect Label.fromJson data

/-- Body of _LabelAPI.create: a literal dict, so description is
serialized even when it is None. -/
def labelsCreate_body (name color : String) (description : Option String := none) :
    Json :=
  Json.obj [("name", Json.str name), ("color", Json.str color),
    ("description", match description with | some s => Json.str s | none => Json.null)]

/-- GET /api/user/orgs: no query parameters. -/
def orgsList_request : ApiRequest :=
  ⟨"GET", "/api/user/orgs", none, none⟩

/-- Response handling of _OrganizationAPI.list: direct iteration. -/
def orgsList_handle (data : Json) : Except PyErr (List Organization) :=
  listDirect Organization.fromJson data

/-- Response handling of _OrganizationAPI.list_teams: direct iteration. -/
def orgsListTeams_handle (data : Json) : Except PyErr (List Team) :=
  listDirect Team.fromJson data

/-- GET /api/repos/{owner}/{repo}/hooks: no query parameters. -/
def webhooksList_request (owner repo : String) : ApiRequest :=
  ⟨"GET", "/api/repos/" ++ owner ++ "/" ++ repo ++ "/hooks", none, none⟩

/-- Response handling of _WebhookAPI.list: direct iteration. -/
def webhooksList_handle (data : Json) : Except PyErr (List Webhook) :=
  listDirect Webhook.fromJson data

/-- Body of _WebhookAPI.create. -/
def webhooksCreate_body (request : CreateWebhookRequest) : Json :=
  request.dumpExcludeNone

/-- Body of _PullRequestAPI.create_review. -/
def reviewsCreate_body (request : CreateReviewRequest) : Json :=
  request.dumpExcludeNone

/-- Response handling of _IssueAPI.list_comments: direct iteration. -/
def commentsList_handle (data : Json) : Except PyErr (List Comment) :=
  listDirect Comment.fromJson data

/-- Response handling of _PullRequestAPI.list_reviews: direct iteration. -/
def reviewsList_handle (data : Json) : Except PyErr (List Review) :=
  listDirect Review.fromJson data

/-- GET /api/consensus/blocks with limit (default 10): note there is no
page or per_page parameter. -/
def consensusListBlocks_request (limit : Int := 10) : ApiRequest :=
  ⟨"GET", "/api/consensus/blocks", some [("limit", Json.num limit)], none⟩

/-- Response handling of _ConsensusAPI.list_blocks: direct iteration. -/
def consensusListBlocks_handle (data : Json) : Except PyErr (List Block) :=
  listDirect Block.fromJson data

/-- Response handling of _ConsensusAPI.list_validators: direct iteration. -/
def consensusListValidators_handle (data : Json) : Except PyErr (List Validator) :=
  listDirect Validator.fromJson data

/-! ## Helper lemmas -/

/-- If a key is absent from an object, the membership test on its field
list is false. -/
lemma any_eq_false_of_lookupField_none (fs : List (String × Json)) (k : String)
    (h : lookupField fs k = none) : fs.any (fun p => p.1 == k) = false := by
  have hfind : fs.find? (fun p => p.1 == k) = none := by
    unfold lookupField at h
    cases hf : fs.find? (fun p => p.1 == k) with
    | none => rfl
    | some p => rw [hf] at h; simp at h
  by_contra hc
  have hta : fs.any (fun p => p.1 == k) = true := by
    cases hA : fs.any (fun p => p.1 == k) with
    | false => exact absurd hA hc
    | true => rfl
  obtain ⟨p, hp, hpk⟩ := List.any_eq_true.mp hta
  exact absurd hpk (by simpa using List.find?_eq_none.mp hfind p hp)

/-- Every status at or above 400 makes raise_for_status raise, and the
raised exception preserves the message, the status code and the details. -/
lemma raise_for_status_of_ge400 (s : Nat) (m : Json) (d : Option Json)
    (hs : 400 ≤ s) :
    ∃ e, raise_for_status s m d = some e ∧ e.message = m ∧ e.status_code = s ∧
      e.details = d := by
  unfold raise_for_status
  by_cases h1 : s = 401
  · subst h1; exact ⟨mkUnauthorizedError m d, by simp, rfl, rfl, rfl⟩
  simp only [if_neg h1]
  by_cases h2 : s = 403
  · subst h2; exact ⟨mkForbiddenError m d, by simp, rfl, rfl, rfl⟩
  simp only [if_neg h2]
  by_cases h3 : s = 404
  · subst h3; exact ⟨mkNotFoundError m d, by simp, rfl, rfl, rfl⟩
  simp only [if_neg h3]
  by_cases h4 : s = 422
  · subst h4; exact ⟨mkValidationError m d, by simp, rfl, rfl, rfl⟩
  simp only [if_neg h4]
  by_cases h5 : s = 429
  · subst h5; exact ⟨mkRateLimitError m none d, by simp, rfl, rfl, rfl⟩
  simp only [if_neg h5]
  by_cases h6 : 500 ≤ s
  · simp only [if_pos h6]; exact ⟨mkServerError m s d, rfl, rfl, rfl, rfl⟩
  · simp only [if_neg h6, if_pos hs]; exact ⟨mkGutsError m s d, rfl, rfl, rfl, rfl⟩

/-- A status at or above 400 is not a success status. -/
lemma is_success_eq_false_of_ge400 (s : Nat) (hs : 400 ≤ s) :
    is_success s = false := by
  unfold is_success
  have h : ¬ s < 300 := by omega
  simp [h]

/-! ## Claim theorems -/

/-- Claim C1: raise_for_status maps 401/403/404/422/429 to the
Unauthorized/Forbidden/NotFound/Validation/RateLimit errors, every code
at or above 500 to ServerError carrying that exact code, and every
remaining code in [400,499] to the generic GutsError carrying that code;
in each case the raised error keeps the given message and details. -/
theorem raise_for_status_dispatch (m : Json) (d : Option Json) (s : Nat) :
    raise_for_status 401 m d =
      some ⟨ExcKind.unauthorizedError, m, 401, d, none⟩ ∧
    raise_for_status 403 m d =
      some ⟨ExcKind.forbiddenError, m, 403, d, none⟩ ∧
    raise_for_status 404 m d =
      some ⟨ExcKind.notFoundError, m, 404, d, none⟩ ∧
    raise_for_status 422 m d =
      some ⟨ExcKind.validationError, m, 422, d, none⟩ ∧
    raise_for_status 429 m d =
      some ⟨ExcKind.rateLimitError, m, 429, d, none⟩ ∧
    (500 ≤ s → raise_for_status s m d =
      some ⟨ExcKind.serverError, m, s, d, none⟩) ∧
    (400 ≤ s → s ≤ 499 → s ≠ 401 → s ≠ 403 → s ≠ 404 → s ≠ 422 → s ≠ 429 →
      raise_for_status s m d = some ⟨ExcKind.gutsError, m, s, d, none⟩) := by
  refine ⟨rfl, rfl, rfl, rfl, rfl, fun h5 => ?_, fun h4 _ hn1 hn2 hn3 hn4 hn5 => ?_⟩
  · unfold raise_for_status
    rw [if_neg (by omega), if_neg (by omega), if_neg (by omega), if_neg (by omega),
      if_neg (by omega), if_pos h5]
    rfl
  · unfold raise_for_status
    rw [if_neg hn1, if_neg hn2, if_neg hn3, if_neg hn4, if_neg hn5,
      if_neg (by omega), if_pos h4]
    rfl

/-- Witness for claim C1 at the hypothetical branches: status 503 maps to
ServerError with code 503, status 418 maps to the generic GutsError with
code 418. -/
theorem raise_for_status_dispatch_witness :
    raise_for_status 503 (Json.str "boom") none =
      some ⟨ExcKind.serverError, Json.str "boom", 503, none, none⟩ ∧
    raise_for_status 418 (Json.str "teapot") none =
      some ⟨ExcKind.gutsError, Json.str "teapot", 418, none, none⟩ :=
  ⟨(raise_for_status_dispatch (Json.str "boom") none 503).2.2.2.2.2.1 (by omega),
   (raise_for_status_dispatch (Json.str "teapot") none 418).2.2.2.2.2.2
     (by omega) (by omega) (by omega) (by omega) (by omega) (by omega) (by omega)⟩

/-- Claim C8 counterexample: a 429 response whose details carry a
retry-after hint (retry_after 30 in the parsed body) still dispatches a
RateLimitError whose retry_after attribute is none, not some 30:
raise_for_status never forwards any server-declared hint, because the
call RateLimitError(message, details=details) leaves retry_after at its
default. -/
theorem rateLimit_hint_not_forwarded :
    raise_for_status 429 (Json.str "slow down")
        (some (Json.obj [("retry_after", Json.num 30)])) =
      some ⟨ExcKind.rateLimitError, Json.str "slow down", 429,
        some (Json.obj [("retry_after", Json.num 30)]), none⟩ := rfl

/-- Claim C8 amended: for a 429 status the dispatched error is a
RateLimitError preserving the message, status 429 and details, but its
retry_after attribute is always none; the dispatch function has no access
to any server retry hint and never sets the field. -/
theorem rateLimit_dispatch (m : Json) (d : Option Json) :
    raise_for_status 429 m d =
      some ⟨ExcKind.rateLimitError, m, 429, d, none⟩ := rfl

/-- Claim C9: for every status code strictly below 400, raise_for_status
falls through all branches and raises nothing, and a non-success response
with such a status (a 1xx or 3xx) makes _request proceed to parse and
return the JSON body as if it were a success. -/
theorem below400_no_error (s : Nat) (text : String) (j : Json) (hs : s < 400) :
    (∀ m d, raise_for_status s m d = none) ∧
    (is_success s = false → requestModel s text (some j) = Except.ok (some j)) := by
  constructor
  · intro m d
    unfold raise_for_status
    rw [if_neg (by omega), if_neg (by omega), if_neg (by omega), if_neg (by omega),
      if_neg (by omega), if_neg (by omega), if_neg (by omega)]
  · intro hf
    have h204 : s ≠ 204 := by
      intro h
      rw [h] at hf
      simp [is_success] at hf
    unfold requestModel
    rw [hf]
    simp only [Bool.false_eq_true, if_false]
    rw [(by
      unfold raise_for_status
      rw [if_neg (by omega), if_neg (by omega), if_neg (by omega), if_neg (by omega),
        if_neg (by omega), if_neg (by omega), if_neg (by omega)] :
      raise_for_status s (extractErrorInfo text (some j)).message
        (extractErrorInfo text (some j)).details = none)]
    unfold parseBody
    rw [if_neg h204]

/-- Witness for claim C9 at status 304 (an unfollowed redirect): nothing
is raised and the parsed body comes back as the result. -/
theorem below400_no_error_witness :
    raise_for_status 304 (Json.str "m") none = none ∧
    requestModel 304 "" (some (Json.obj [("a", Json.num 1)])) =
      Except.ok (some (Json.obj [("a", Json.num 1)])) :=
  ⟨(below400_no_error 304 "" (Json.obj [("a", Json.num 1)]) (by omega)).1
      (Json.str "m") none,
   (below400_no_error 304 "" (Json.obj [("a", Json.num 1)]) (by omega)).2 rfl⟩

/-- Claim C10 counterexample: the response body "true" parses
successfully as the JSON boolean true, yet the raised error carries the
raw response text "true" as its message. JSON parsing did not fail; what
failed is the membership test "message" in True, which raises TypeError
inside the try block and lands in the except branch. So the raw text is
not used only when JSON parsing fails. -/
theorem rawText_despite_parse_success :
    requestModel 400 "true" (some (Json.bool true)) =
      Except.error (ReqError.guts
        ⟨ExcKind.gutsError, Json.str "true", 400, none, none⟩) := rfl

/-- Claim C10 amended: on a failing response whose body parses as a JSON
object without a message key, the raised error has message
"Request failed" and details equal to the whole parsed body. The raw
response text is used as the message when JSON parsing fails, or when
extracting message from the parsed value raises because the value is not
a container (for example a number); in both of those cases details is
None, and an empty text falls back to "Request failed". -/
theorem failing_response_message_defaults (s : Nat) (text : String)
    (fs : List (String × Json)) (n : Int) (hs : 400 ≤ s)
    (hnomsg : lookupField fs "message" = none) :
    (∃ e, requestModel s text (some (Json.obj fs)) =
        Except.error (ReqError.guts e) ∧
      e.message = Json.str "Request failed" ∧ e.details = some (Json.obj fs)) ∧
    (text ≠ "" → extractErrorInfo text none = ⟨Json.str text, none⟩) ∧
    extractErrorInfo "" none = ⟨Json.str "Request failed", none⟩ ∧
    extractErrorInfo text (some (Json.num n)) =
      ⟨Json.str (if text = "" then "Request failed" else text), none⟩ := by
  have hany := any_eq_false_of_lookupField_none fs "message" hnomsg
  have hsucc := is_success_eq_false_of_ge400 s hs
  have hextract : extractErrorInfo text (some (Json.obj fs)) =
      ⟨Json.str "Request failed", some (Json.obj fs)⟩ := by
    simp only [extractErrorInfo, jsonMember, hany]
  refine ⟨?_, fun ht => ?_, rfl, rfl⟩
  · obtain ⟨e, he, hm, _, hd⟩ :=
      raise_for_status_of_ge400 s (Json.str "Request failed")
        (some (Json.obj fs)) hs
    refine ⟨e, ?_, hm, hd⟩
    unfold requestModel
    rw [hsucc]
    simp only [Bool.false_eq_true, if_false, hextract]
    rw [he]
  · unfold extractErrorInfo fallbackMessage
    rw [if_neg ht]

/-- Witness for the amended claim C10 at a concrete 404 response whose
object body has no message key. -/
theorem failing_response_message_defaults_witness :
    (∃ e, requestModel 404 "x" (some (Json.obj [("code", Json.num 7)])) =
        Except.error (ReqError.guts e) ∧
      e.message = Json.str "Request failed" ∧
      e.details = some (Json.obj [("code", Json.num 7)])) ∧
    ("x" ≠ "" → extractErrorInfo "x" none = ⟨Json.str "x", none⟩) ∧
    extractErrorInfo "" none = ⟨Json.str "Request failed", none⟩ ∧
    extractErrorInfo "x" (some (Json.num 42)) =
      ⟨Json.str (if "x" = "" then "Request failed" else "x"), none⟩ :=
  failing_response_message_defaults 404 "x" [("code", Json.num 7)] 42
    (by omega) rfl

/-- On an object payload whose items key holds an array, the
items-fallback list handling decodes that array element-wise. -/
lemma listWithItemsKey_obj {α : Type} (dec : Json → Except PyErr α)
    (fs : List (String × Json)) (xs : List Json)
    (h : lookupField fs "items" = some (Json.arr xs)) :
    listWithItemsKey dec (Json.obj fs) = decodeJsonList dec xs := by
  simp only [listWithItemsKey, pyDictGet, h, Option.getD_some]
  rfl

/-- Claim C2 counterexample: _RepositoryAPI.list on a bare JSON array
(here the empty array) raises AttributeError instead of returning the
decoded list, because data.get("items", data) is called on a Python list,
which has no get attribute. -/
theorem reposList_bare_array_raises :
    reposList_handle (Json.arr []) = Except.error PyErr.attributeError := rfl

/-- Claim C2 amended: the list operations that iterate the payload
directly (releases, labels, webhooks, orgs, consensus blocks, and
likewise comments, reviews, teams, validators) return the bare array
decoded element-wise in order; but repos.list, issues.list and pulls.list
raise AttributeError on every bare array, because they call .get on it. -/
theorem facade_list_bare_array (lj rj wj oj bj : List Json)
    (ls : List Label) (rs : List Release) (ws : List Webhook)
    (os : List Organization) (bs : List Block)
    (hl : decodeJsonList Label.fromJson lj = Except.ok ls)
    (hr : decodeJsonList Release.fromJson rj = Except.ok rs)
    (hw : decodeJsonList Webhook.fromJson wj = Except.ok ws)
    (ho : decodeJsonList Organization.fromJson oj = Except.ok os)
    (hb : decodeJsonList Block.fromJson bj = Except.ok bs) :
    labelsList_handle (Json.arr lj) = Except.ok ls ∧
    releasesList_handle (Json.arr rj) = Except.ok rs ∧
    webhooksList_handle (Json.arr wj) = Except.ok ws ∧
    orgsList_handle (Json.arr oj) = Except.ok os ∧
    consensusListBlocks_handle (Json.arr bj) = Except.ok bs ∧
    (∀ xs, reposList_handle (Json.arr xs) = Except.error PyErr.attributeError) ∧
    (∀ xs, issuesList_handle (Json.arr xs) = Except.error PyErr.attributeError) ∧
    (∀ xs, pullsList_handle (Json.arr xs) = Except.error PyErr.attributeError) :=
  ⟨hl, hr, hw, ho, hb, fun _ => rfl, fun _ => rfl, fun _ => rfl⟩

/-- Witness for the amended claim C2: a two-element label array decodes
to the two labels in order, and the items-fallback operations raise. -/
theorem facade_list_bare_array_witness :
    labelsList_handle (Json.arr
        [Json.obj [("name", Json.str "bug"), ("color", Json.str "f00")],
         Json.obj [("name", Json.str "ui"), ("color", Json.str "0f0")]]) =
      Except.ok [⟨"bug", "f00", none⟩, ⟨"ui", "0f0", none⟩] ∧
    releasesList_handle (Json.arr []) = Except.ok [] ∧
    webhooksList_handle (Json.arr []) = Except.ok [] ∧
    orgsList_handle (Json.arr []) = Except.ok [] ∧
    consensusListBlocks_handle (Json.arr []) = Except.ok [] ∧
    (∀ xs, reposList_handle (Json.arr xs) = Except.error PyErr.attributeError) ∧
    (∀ xs, issuesList_handle (Json.arr xs) = Except.error PyErr.attributeError) ∧
    (∀ xs, pullsList_handle (Json.arr xs) = Except.error PyErr.attributeError) :=
  facade_list_bare_array
    [Json.obj [("name", Json.str "bug"), ("color", Json.str "f00")],
     Json.obj [("name", Json.str "ui"), ("color", Json.str "0f0")]]
    [] [] [] []
    [⟨"bug", "f00", none⟩, ⟨"ui", "0f0", none⟩] [] [] [] []
    rfl rfl rfl rfl rfl

/-- Claim C3 counterexample: _LabelAPI.list on the envelope body with an
items array raises TypeError instead of decoding the items: the method
iterates the dict, which yields the key "items" as a string, and
Label(**"items") fails because a string cannot be keyword-splatted. -/
theorem labelsList_envelope_raises :
    labelsList_handle (Json.obj [("items", Json.arr [])]) =
      Except.error PyErr.typeError := rfl

/-- Claim C3 amended: repos.list, issues.list and pulls.list decode the
items array of an envelope element-wise, ignoring all sibling keys; but
the directly-iterating list operations (labels, releases, webhooks, and
likewise orgs, comments, reviews, blocks) raise TypeError on any
non-empty object payload, envelopes included. -/
theorem facade_list_envelope (fs : List (String × Json)) (xs : List Json)
    (k : String) (v : Json) (gs : List (String × Json))
    (h : lookupField fs "items" = some (Json.arr xs)) :
    reposList_handle (Json.obj fs) = decodeJsonList Repository.fromJson xs ∧
    issuesList_handle (Json.obj fs) = decodeJsonList Issue.fromJson xs ∧
    pullsList_handle (Json.obj fs) = decodeJsonList PullRequest.fromJson xs ∧
    labelsList_handle (Json.obj ((k, v) :: gs)) = Except.error PyErr.typeError ∧
    releasesList_handle (Json.obj ((k, v) :: gs)) = Except.error PyErr.typeError ∧
    webhooksList_handle (Json.obj ((k, v) :: gs)) = Except.error PyErr.typeError :=
  ⟨listWithItemsKey_obj Repository.fromJson fs xs h,
   listWithItemsKey_obj Issue.fromJson fs xs h,
   listWithItemsKey_obj PullRequest.fromJson fs xs h,
   rfl, rfl, rfl⟩

/-- Witness for the amended claim C3 on an envelope with a sibling key. -/
theorem facade_list_envelope_witness :
    reposList_handle (Json.obj [("items", Json.arr []), ("total", Json.num 5)]) =
      decodeJsonList Repository.fromJson [] ∧
    issuesList_handle (Json.obj [("items", Json.arr []), ("total", Json.num 5)]) =
      decodeJsonList Issue.fromJson [] ∧
    pullsList_handle (Json.obj [("items", Json.arr []), ("total", Json.num 5)]) =
      decodeJsonList PullRequest.fromJson [] ∧
    labelsList_handle (Json.obj [("items", Json.arr [])]) =
      Except.error PyErr.typeError ∧
    releasesList_handle (Json.obj [("items", Json.arr [])]) =
      Except.error PyErr.typeError ∧
    webhooksList_handle (Json.obj [("items", Json.arr [])]) =
      Except.error PyErr.typeError :=
  facade_list_envelope [("items", Json.arr []), ("total", Json.num 5)] []
    "items" (Json.arr []) [] rfl

/-- True when a top-level key of a JSON object holds null; the create and
update bodies of this client only nest strings, booleans and string
arrays, so the top level is the only place a null can appear. -/
def Json.hasNullValue : Json → Bool
  | Json.obj fs => fs.any (fun p => match p.2 with | Json.null => true | _ => false)
  | _ => false

/-- Claim C4 counterexample: repos.create with description=None sends a
body whose description key holds JSON null, because _RepositoryAPI.create
builds a literal dict with the description always present; the same holds
for labels.create. -/
theorem reposCreate_sends_null_description :
    reposCreate_body "demo" none false =
      Json.obj [("name", Json.str "demo"), ("description", Json.null),
        ("private", Json.bool false)] ∧
    (reposCreate_body "demo" none false).hasNullValue = true ∧
    (labelsCreate_body "bug" "f00" none).hasNullValue = true :=
  ⟨rfl, rfl, rfl⟩

/-- Claim C4 amended: the create operations that serialize a request
model via model_dump(exclude_none=True) (issues, pulls, releases,
reviews, webhooks) omit every None-valued field and so never send a
null-valued key; the body key is absent entirely when unset. But
repos.create and labels.create build literal dicts that always include
description, serializing it as null when it is None. -/
theorem create_bodies_null_handling :
    (∀ r : CreateIssueRequest, (issuesCreate_body r).hasNullValue = false) ∧
    (∀ r : CreatePullRequestRequest, (pullsCreate_body r).hasNullValue = false) ∧
    (∀ r : CreateReleaseRequest, (releasesCreate_body r).hasNullValue = false) ∧
    (∀ r : CreateReviewRequest, (reviewsCreate_body r).hasNullValue = false) ∧
    (∀ r : CreateWebhookRequest, (webhooksCreate_body r).hasNullValue = false) ∧
    (∀ title ls as, issuesCreate_body ⟨title, none, ls, as⟩ =
      Json.obj [("title", Json.str title),
        ("labels", Json.arr (ls.map Json.str)),
        ("assignees", Json.arr (as.map Json.str))]) ∧
    (∀ name priv, reposCreate_body name none priv =
      Json.obj [("name", Json.str name), ("description", Json.null),
        ("private", Json.bool priv)]) ∧
    (∀ name color, labelsCreate_body name color none =
      Json.obj [("name", Json.str name), ("color", Json.str color),
        ("description", Json.null)]) := by
  refine ⟨fun r => ?_, fun r => ?_, fun r => ?_, fun r => ?_, fun r => ?_,
    fun _ _ _ => rfl, fun _ _ => rfl, fun _ _ => rfl⟩
  · rcases r with ⟨t, b, ls, as⟩
    cases b <;>
      simp [issuesCreate_body, CreateIssueRequest.dumpExcludeNone, dumpOptStr,
        Json.hasNullValue]
  · rcases r with ⟨t, b, sb, tb, d⟩
    cases b <;>
      simp [pullsCreate_body, CreatePullRequestRequest.dumpExcludeNone, dumpOptStr,
        Json.hasNullValue]
  · rcases r with ⟨tg, nm, b, d, p, tc⟩
    cases nm <;> cases b <;> cases tc <;>
      simp [releasesCreate_body, CreateReleaseRequest.dumpExcludeNone, dumpOptStr,
        Json.hasNullValue]
  · rcases r with ⟨b, st, ci⟩
    cases b <;> cases ci <;>
      simp [reviewsCreate_body, CreateReviewRequest.dumpExcludeNone, dumpOptStr,
        Json.hasNullValue]
  · rcases r with ⟨u, ev, ac, sec⟩
    cases sec <;>
      simp [webhooksCreate_body, CreateWebhookRequest.dumpExcludeNone, dumpOptStr,
        Json.hasNullValue]

/-- Claim C5 counterexample: _ReleaseAPI.list has no page or per_page
parameter at all; its GET request carries no query parameters, so the
claim that every list operation forwards page/per_page fails here. -/
theorem releasesList_no_pagination :
    releasesList_request "a" "b" =
      ⟨"GET", "/api/repos/a/b/releases", none, none⟩ := rfl

/-- Claim C5 amended: repos.list, issues.list and pulls.list accept page
and per_page with defaults 1 and 30 and forward them as query
parameters of their single GET (issues and pulls also forward state,
default "open"); releases.list, labels.list, webhooks.list and orgs.list
send no query parameters at all, and consensus.list_blocks sends only
limit, default 10. -/
theorem pagination_parameters (o r st : String) (p pp limit : Int) :
    reposList_request p pp = ⟨"GET", "/api/repos",
      some [("page", Json.num p), ("per_page", Json.num pp)], none⟩ ∧
    reposList_request = reposList_request 1 30 ∧
    issuesList_request o r st p pp =
      ⟨"GET", "/api/repos/" ++ o ++ "/" ++ r ++ "/issues",
        some [("state", Json.str st), ("page", Json.num p),
          ("per_page", Json.num pp)], none⟩ ∧
    issuesList_request o r = issuesList_request o r "open" 1 30 ∧
    pullsList_request o r st p pp =
      ⟨"GET", "/api/repos/" ++ o ++ "/" ++ r ++ "/pulls",
        some [("state", Json.str st), ("page", Json.num p),
          ("per_page", Json.num pp)], none⟩ ∧
    pullsList_request o r = pullsList_request o r "open" 1 30 ∧
    (releasesList_request o r).params = none ∧
    (labelsList_request o r).params = none ∧
    (webhooksList_request o r).params = none ∧
    orgsList_request.params = none ∧
    consensusListBlocks_request limit = ⟨"GET", "/api/consensus/blocks",
      some [("limit", Json.num limit)], none⟩ ∧
    consensusListBlocks_request = consensusListBlocks_request 10 :=
  ⟨rfl, rfl, rfl, rfl, rfl, rfl, rfl, rfl, rfl, rfl, rfl, rfl⟩

/-- Claim C6: issues.close performs exactly the PATCH that issues.update
with state="closed" performs and hands the response to the same decoding,
and likewise issues.reopen with state="open" and pulls.close with
state="closed". The request functions do not depend on any current state
of the issue, so closing an already-closed issue issues the same PATCH
and raises nothing locally. -/
theorem close_is_update_with_state (o r : String) (n : Int) (data : Json) :
    issuesClose_request o r n =
      issuesUpdate_request o r n [("state", Json.str "closed")] ∧
    issuesClose_request o r n = ⟨"PATCH",
      "/api/repos/" ++ o ++ "/" ++ r ++ "/issues/" ++ toString n, none,
      some (Json.obj [("state", Json.str "closed")])⟩ ∧
    issuesClose_handle data = issuesUpdate_handle data ∧
    issuesReopen_request o r n =
      issuesUpdate_request o r n [("state", Json.str "open")] ∧
    issuesReopen_handle data = issuesUpdate_handle data ∧
    pullsClose_request o r n =
      pullsUpdate_request o r n [("state", Json.str "closed")] ∧
    pullsClose_handle data = pullsUpdate_handle data :=
  ⟨rfl, rfl, rfl, rfl, rfl, rfl, rfl⟩

/-! ## Minimal-body decoding lemmas (one per entity)

Each lemma feeds the decoder an object carrying exactly the required
fields of models.py and checks that decoding succeeds with every optional
field at its declared default. Timestamps use one fixed ISO string. -/

/-- Encoding an enum value and decoding it round-trips: events. -/
lemma decodeEvent_toWire (e : WebhookEvent) :
    decodeEvent (Json.str e.toWire) = Except.ok e := by
  cases e <;> rfl

/-- Element-wise decoding of an encoded event list round-trips. -/
lemma decodeJsonList_event_toWire (es : List WebhookEvent) :
    decodeJsonList decodeEvent (es.map (fun e => Json.str e.toWire)) =
      Except.ok es := by
  induction es with
  | nil => rfl
  | cons e t ih =>
    show (do
      let a ← decodeEvent (Json.str e.toWire)
      let as ← decodeJsonList decodeEvent (t.map (fun e => Json.str e.toWire))
      Except.ok (a :: as)) = Except.ok (e :: t)
    rw [decodeEvent_toWire, ih]
    rfl

/-- An events field holding an encoded event list decodes to that list. -/
lemma reqEventList_encoded (fs : List (String × Json)) (k : String)
    (es : List WebhookEvent)
    (h : lookupField fs k = some (Json.arr (es.map (fun e => Json.str e.toWire)))) :
    reqEventList fs k = Except.ok es := by
  simp only [reqEventList, h]
  exact decodeJsonList_event_toWire es

/-- Repository from required fields only: private=false,
default_branch="main", counts 0, optionals None. -/
lemma repository_minimal (k nm ow cu hu : String) :
    Repository.fromJson (Json.obj [("key", Json.str k), ("name", Json.str nm),
      ("owner", Json.str ow), ("clone_url", Json.str cu),
      ("html_url", Json.str hu),
      ("created_at", Json.str "2024-01-01T00:00:00Z"),
      ("updated_at", Json.str "2024-01-01T00:00:00Z")]) =
    Except.ok ⟨k, nm, ow, none, false, "main", cu, hu, 0, 0,
      "2024-01-01T00:00:00Z", "2024-01-01T00:00:00Z", none⟩ := rfl

/-- Issue from required fields only: assignees=[], labels=[],
comments_count=0, optionals None. -/
lemma issue_minimal (iid ti au : String) (n : Int) (st : IssueState) :
    Issue.fromJson (Json.obj [("id", Json.str iid), ("number", Json.num n),
      ("title", Json.str ti), ("state", Json.str st.toWire),
      ("author", Json.str au),
      ("created_at", Json.str "2024-01-01T00:00:00Z"),
      ("updated_at", Json.str "2024-01-01T00:00:00Z")]) =
    Except.ok ⟨iid, n, ti, none, st, au, [], [], none, 0,
      "2024-01-01T00:00:00Z", "2024-01-01T00:00:00Z", none, none⟩ := by
  cases st <;> rfl

/-- PullRequest from required fields only: mergeable=None, draft=false,
reviewers=[], labels=[], all counts 0, optionals None. -/
lemma pullRequest_minimal (pid ti au sb tb sc tc : String) (n : Int)
    (st : PullRequestState) :
    PullRequest.fromJson (Json.obj [("id", Json.str pid), ("number", Json.num n),
      ("title", Json.str ti), ("state", Json.str st.toWire),
      ("author", Json.str au), ("source_branch", Json.str sb),
      ("target_branch", Json.str tb), ("source_commit", Json.str sc),
      ("target_commit", Json.str tc),
      ("created_at", Json.str "2024-01-01T00:00:00Z"),
      ("updated_at", Json.str "2024-01-01T00:00:00Z")]) =
    Except.ok ⟨pid, n, ti, none, st, au, sb, tb, sc, tc, none, false, [], [],
      0, 0, 0, 0, 0, "2024-01-01T00:00:00Z", "2024-01-01T00:00:00Z",
      none, none, none⟩ := by
  cases st <;> rfl

/-- Comment has no optional fields; decoding the required fields
succeeds. -/
lemma comment_minimal (cid b au : String) :
    Comment.fromJson (Json.obj [("id", Json.str cid), ("body", Json.str b),
      ("author", Json.str au),
      ("created_at", Json.str "2024-01-01T00:00:00Z"),
      ("updated_at", Json.str "2024-01-01T00:00:00Z")]) =
    Except.ok ⟨cid, b, au, "2024-01-01T00:00:00Z", "2024-01-01T00:00:00Z"⟩ := rfl

/-- Review from required fields only: body=None, submitted_at=None. -/
lemma review_minimal (rid au ci : String) (n : Int) (st : ReviewState) :
    Review.fromJson (Json.obj [("id", Json.str rid), ("pr_number", Json.num n),
      ("author", Json.str au), ("state", Json.str st.toWire),
      ("commit_id", Json.str ci),
      ("created_at", Json.str "2024-01-01T00:00:00Z")]) =
    Except.ok ⟨rid, n, au, st, none, ci, "2024-01-01T00:00:00Z", none⟩ := by
  cases st <;> rfl

/-- Release from required fields only: draft=false, prerelease=false,
assets=[], optionals None. -/
lemma release_minimal (rid tg nm au tc : String) :
    Release.fromJson (Json.obj [("id", Json.str rid), ("tag_name", Json.str tg),
      ("name", Json.str nm), ("author", Json.str au),
      ("target_commitish", Json.str tc),
      ("created_at", Json.str "2024-01-01T00:00:00Z")]) =
    Except.ok ⟨rid, tg, nm, none, false, false, au, tc, [],
      "2024-01-01T00:00:00Z", none⟩ := rfl

/-- Label from required fields only: description=None. -/
lemma label_minimal (nm c : String) :
    Label.fromJson (Json.obj [("name", Json.str nm), ("color", Json.str c)]) =
    Except.ok ⟨nm, c, none⟩ := rfl

/-- User from required fields only: display_name, avatar_url and bio
default to None. -/
lemma user_minimal (uid un pk : String) :
    User.fromJson (Json.obj [("id", Json.str uid), ("username", Json.str un),
      ("public_key", Json.str pk),
      ("created_at", Json.str "2024-01-01T00:00:00Z")]) =
    Except.ok ⟨uid, un, none, none, none, pk, "2024-01-01T00:00:00Z"⟩ := rfl

/-- Organization from required fields only: counts 0, optionals None. -/
lemma organization_minimal (oid sl : String) :
    Organization.fromJson (Json.obj [("id", Json.str oid), ("slug", Json.str sl),
      ("created_at", Json.str "2024-01-01T00:00:00Z")]) =
    Except.ok ⟨oid, sl, none, none, none, 0, 0, "2024-01-01T00:00:00Z"⟩ := rfl

/-- Team from required fields only: permission="read", counts 0,
description=None. -/
lemma team_minimal (tid sl nm : String) :
    Team.fromJson (Json.obj [("id", Json.str tid), ("slug", Json.str sl),
      ("name", Json.str nm),
      ("created_at", Json.str "2024-01-01T00:00:00Z")]) =
    Except.ok ⟨tid, sl, nm, none, "read", 0, 0, "2024-01-01T00:00:00Z"⟩ := rfl

/-- Webhook from required fields only: active=true, content_type="json",
secret=None, last_delivery_at=None. -/
lemma webhook_minimal (wid u : String) (es : List WebhookEvent) :
    Webhook.fromJson (Json.obj [("id", Json.str wid), ("url", Json.str u),
      ("events", Json.arr (es.map (fun e => Json.str e.toWire))),
      ("created_at", Json.str "2024-01-01T00:00:00Z"),
      ("updated_at", Json.str "2024-01-01T00:00:00Z")]) =
    Except.ok ⟨wid, u, es, true, none, "json", "2024-01-01T00:00:00Z",
      "2024-01-01T00:00:00Z", none⟩ := by
  have he : reqEventList [("id", Json.str wid), ("url", Json.str u),
      ("events", Json.arr (es.map (fun e => Json.str e.toWire))),
      ("created_at", Json.str "2024-01-01T00:00:00Z"),
      ("updated_at", Json.str "2024-01-01T00:00:00Z")] "events" = Except.ok es :=
    reqEventList_encoded _ _ es rfl
  simp only [Webhook.fromJson, he]
  rfl

/-- ConsensusStatus from required fields only: last_block_time=None. -/
lemma consensusStatus_minimal (h rnd pc vc ms : Int) (ph : String) (sy : Bool) :
    ConsensusStatus.fromJson (Json.obj [("height", Json.num h),
      ("round", Json.num rnd), ("phase", Json.str ph), ("synced", Json.bool sy),
      ("peers_count", Json.num pc), ("validators_count", Json.num vc),
      ("mempool_size", Json.num ms)]) =
    Except.ok ⟨h, rnd, ph, sy, pc, vc, ms, none⟩ := rfl

/-- Block has no optional fields; decoding the required fields succeeds. -/
lemma block_minimal (h tc sz : Int) (hs phs pr : String) :
    Block.fromJson (Json.obj [("height", Json.num h), ("hash", Json.str hs),
      ("parent_hash", Json.str phs),
      ("timestamp", Json.str "2024-01-01T00:00:00Z"),
      ("proposer", Json.str pr), ("transactions_count", Json.num tc),
      ("size", Json.num sz)]) =
    Except.ok ⟨h, hs, phs, "2024-01-01T00:00:00Z", pr, tc, sz⟩ := rfl

/-- Validator from required fields only: last_seen=None. -/
lemma validator_minimal (pk ad : String) (ac : Bool) (vp : Int) :
    Validator.fromJson (Json.obj [("public_key", Json.str pk),
      ("address", Json.str ad), ("active", Json.bool ac),
      ("voting_power", Json.num vp)]) =
    Except.ok ⟨pk, ad, ac, vp, none⟩ := rfl

/-- Claim C7: decoding a body that supplies only the required fields of
an entity succeeds for every entity, with every optional field at its
documented default. The first conjunct is the concrete scenario: the
repos.get("alice","demo") stub body yields a Repository with
private=false and default_branch="main". The remaining conjuncts cover
each entity generically (timestamps fixed to one ISO string, enum-valued
fields quantified over the enum): draft=false, private=false,
active=true, labels=[] and the other defaults all apply. -/
theorem minimal_body_decode_defaults (k nm ow cu hu iid ti au pid pti pau sb tb
    sc tc cid cb cau rvid rvau rvci rlid rltg rlnm rlau rltc lnm lc uid un upk
    oid osl tid tsl tnm wid wu ph bhs bph bpr vpk vad : String)
    (n pn rvn ch rnd pc vc ms bh btc bsz vvp : Int)
    (ist : IssueState) (pst : PullRequestState) (rvst : ReviewState)
    (es : List WebhookEvent) (sy ac : Bool) :
    reposGet_handle (Json.obj [("key", Json.str "alice/demo"),
      ("name", Json.str "demo"), ("owner", Json.str "alice"),
      ("clone_url", Json.str "https://x/demo.git"),
      ("html_url", Json.str "https://x/alice/demo"),
      ("created_at", Json.str "2024-01-01T00:00:00Z"),
      ("updated_at", Json.str "2024-01-01T00:00:00Z")]) =
      Except.ok ⟨"alice/demo", "demo", "alice", none, false, "main",
        "https://x/demo.git", "https://x/alice/demo", 0, 0,
        "2024-01-01T00:00:00Z", "2024-01-01T00:00:00Z", none⟩ ∧
    Repository.fromJson (Json.obj [("key", Json.str k), ("name", Json.str nm),
      ("owner", Json.str ow), ("clone_url", Json.str cu),
      ("html_url", Json.str hu),
      ("created_at", Json.str "2024-01-01T00:00:00Z"),
      ("updated_at", Json.str "2024-01-01T00:00:00Z")]) =
      Except.ok ⟨k, nm, ow, none, false, "main", cu, hu, 0, 0,
        "2024-01-01T00:00:00Z", "2024-01-01T00:00:00Z", none⟩ ∧
    Issue.fromJson (Json.obj [("id", Json.str iid), ("number", Json.num n),
      ("title", Json.str ti), ("state", Json.str ist.toWire),
      ("author", Json.str au),
      ("created_at", Json.str "2024-01-01T00:00:00Z"),
      ("updated_at", Json.str "2024-01-01T00:00:00Z")]) =
      Except.ok ⟨iid, n, ti, none, ist, au, [], [], none, 0,
        "2024-01-01T00:00:00Z", "2024-01-01T00:00:00Z", none, none⟩ ∧
    PullRequest.fromJson (Json.obj [("id", Json.str pid), ("number", Json.num pn),
      ("title", Json.str pti), ("state", Json.str pst.toWire),
      ("author", Json.str pau), ("source_branch", Json.str sb),
      ("target_branch", Json.str tb), ("source_commit", Json.str sc),
      ("target_commit", Json.str tc),
      ("created_at", Json.str "2024-01-01T00:00:00Z"),
      ("updated_at", Json.str "2024-01-01T00:00:00Z")]) =
      Except.ok ⟨pid, pn, pti, none, pst, pau, sb, tb, sc, tc, none, false,
        [], [], 0, 0, 0, 0, 0, "2024-01-01T00:00:00Z", "2024-01-01T00:00:00Z",
        none, none, none⟩ ∧
    Comment.fromJson (Json.obj [("id", Json.str cid), ("body", Json.str cb),
      ("author", Json.str cau),
      ("created_at", Json.str "2024-01-01T00:00:00Z"),
      ("updated_at", Json.str "2024-01-01T00:00:00Z")]) =
      Except.ok ⟨cid, cb, cau, "2024-01-01T00:00:00Z",
        "2024-01-01T00:00:00Z"⟩ ∧
    Review.fromJson (Json.obj [("id", Json.str rvid), ("pr_number", Json.num rvn),
      ("author", Json.str rvau), ("state", Json.str rvst.toWire),
      ("commit_id", Json.str rvci),
      ("created_at", Json.str "2024-01-01T00:00:00Z")]) =
      Except.ok ⟨rvid, rvn, rvau, rvst, none, rvci, "2024-01-01T00:00:00Z",
        none⟩ ∧
    Release.fromJson (Json.obj [("id", Json.str rlid),
      ("tag_name", Json.str rltg), ("name", Json.str rlnm),
      ("author", Json.str rlau), ("target_commitish", Json.str rltc),
      ("created_at", Json.str "2024-01-01T00:00:00Z")]) =
      Except.ok ⟨rlid, rltg, rlnm, none, false, false, rlau, rltc, [],
        "2024-01-01T00:00:00Z", none⟩ ∧
    Label.fromJson (Json.obj [("name", Json.str lnm), ("color", Json.str lc)]) =
      Except.ok ⟨lnm, lc, none⟩ ∧
    User.fromJson (Json.obj [("id", Json.str uid), ("username", Json.str un),
      ("public_key", Json.str upk),
      ("created_at", Json.str "2024-01-01T00:00:00Z")]) =
      Except.ok ⟨uid, un, none, none, none, upk, "2024-01-01T00:00:00Z"⟩ ∧
    Organization.fromJson (Json.obj [("id", Json.str oid),
      ("slug", Json.str osl),
      ("created_at", Json.str "2024-01-01T00:00:00Z")]) =
      Except.ok ⟨oid, osl, none, none, none, 0, 0, "2024-01-01T00:00:00Z"⟩ ∧
    Team.fromJson (Json.obj [("id", Json.str tid), ("slug", Json.str tsl),
      ("name", Json.str tnm),
      ("created_at", Json.str "2024-01-01T00:00:00Z")]) =
      Except.ok ⟨tid, tsl, tnm, none, "read", 0, 0, "2024-01-01T00:00:00Z"⟩ ∧
    Webhook.fromJson (Json.obj [("id", Json.str wid), ("url", Json.str wu),
      ("events", Json.arr (es.map (fun e => Json.str e.toWire))),
      ("created_at", Json.str "2024-01-01T00:00:00Z"),
      ("updated_at", Json.str "2024-01-01T00:00:00Z")]) =
      Except.ok ⟨wid, wu, es, true, none, "json", "2024-01-01T00:00:00Z",
        "2024-01-01T00:00:00Z", none⟩ ∧
    ConsensusStatus.fromJson (Json.obj [("height", Json.num ch),
      ("round", Json.num rnd), ("phase", Json.str ph), ("synced", Json.bool sy),
      ("peers_count", Json.num pc), ("validators_count", Json.num vc),
      ("mempool_size", Json.num ms)]) =
      Except.ok ⟨ch, rnd, ph, sy, pc, vc, ms, none⟩ ∧
    Block.fromJson (Json.obj [("height", Json.num bh), ("hash", Json.str bhs),
      ("parent_hash", Json.str bph),
      ("timestamp", Json.str "2024-01-01T00:00:00Z"),
      ("proposer", Json.str bpr), ("transactions_count", Json.num btc),
      ("size", Json.num bsz)]) =
      Except.ok ⟨bh, bhs, bph, "2024-01-01T00:00:00Z", bpr, btc, bsz⟩ ∧
    Validator.fromJson (Json.obj [("public_key", Json.str vpk),
      ("address", Json.str vad), ("active", Json.bool ac),
      ("voting_power", Json.num vvp)]) =
      Except.ok ⟨vpk, vad, ac, vvp, none⟩ :=
  ⟨repository_minimal "alice/demo" "demo" "alice" "https://x/demo.git"
      "https://x/alice/demo",
   repository_minimal k nm ow cu hu,
   issue_minimal iid ti au n ist,
   pullRequest_minimal pid pti pau sb tb sc tc pn pst,
   comment_minimal cid cb cau,
   review_minimal rvid rvau rvci rvn rvst,
   release_minimal rlid rltg rlnm rlau rltc,
   label_minimal lnm lc,
   user_minimal uid un upk,
   organization_minimal oid osl,
   team_minimal tid tsl tnm,
   webhook_minimal wid wu es,
   consensusStatus_minimal ch rnd pc vc ms ph sy,
   block_minimal bh btc bsz bhs bph bpr,
   validator_minimal vpk vad ac vvp⟩

end Guts
